import Mathlib

/-!
# Verification of the `theseus` diagnostic-report core

A shallow embedding, in Lean 4, of the Rust sources of the `theseus`
library (Python bindings around the `ariadne` diagnostic renderer):

* `src/color.rs` — the `Color` value type and its boundary constructor;
* `src/label.rs` — the `Label` value type, its validated constructor,
  the override-copy operation and target resolution;
* `src/report.rs` — `Source`, `ReportKind` resolution, and the `Report`
  aggregate with its render handoff;
* `src/config.rs` — the `Config` value type and `parse_label_attach`;
* `src/color_generator.rs` — a wrapper around the external crate's
  color generator (the algorithm itself is modelled from the spec,
  see `cgNext` below).

Python-boundary machinery (pyo3 object downcasts, file reading, sys
stdout/stderr writers) is represented by already-resolved values or by
small input ADTs mirroring the dispatch the Rust code performs on the
dynamic Python value.  Errors are a `PyErr` sum mirroring the exception
class and message the Rust code raises.
-/

/-- A raised Python exception: the pyo3 exception class plus its message,
exactly as constructed in the Rust sources. -/
inductive PyErr where
  | valueError (msg : String)
  | typeError (msg : String)
  deriving DecidableEq, Repr

/-! ## Color (`src/color.rs`) -/

/-- The `ariadne::Color` enum: 17 named palette entries, an 8-bit
indexed color `Fixed`, and an RGB triple.  Payloads are `Nat`s kept in
u8 range by the constructors that build them. -/
inductive AriadneColor where
  | Primary | Black | White | Red | Green | Blue | Yellow | Cyan | Magenta
  | BrightBlack | BrightWhite | BrightRed | BrightGreen | BrightBlue
  | BrightYellow | BrightCyan | BrightMagenta
  | Fixed (id : Nat)
  | Rgb (r g b : Nat)
  deriving DecidableEq, Repr

/-- `Color` from `src/color.rs`: a newtype over `ariadne::Color`. -/
structure Color where
  inner : AriadneColor
  deriving DecidableEq, Repr

/-- `Color::new`. -/
def Color.new (inner : AriadneColor) : Color := ⟨inner⟩

/-- `Color::new_str`: the 17-name lookup table; any other string raises
`PyValueError("Unknown color: <name>")`. -/
def Color.new_str (name : String) : Except PyErr Color :=
  match name with
  | "primary" => .ok (Color.new .Primary)
  | "black" => .ok (Color.new .Black)
  | "white" => .ok (Color.new .White)
  | "red" => .ok (Color.new .Red)
  | "green" => .ok (Color.new .Green)
  | "blue" => .ok (Color.new .Blue)
  | "yellow" => .ok (Color.new .Yellow)
  | "cyan" => .ok (Color.new .Cyan)
  | "magenta" => .ok (Color.new .Magenta)
  | "bright-black" => .ok (Color.new .BrightBlack)
  | "bright-white" => .ok (Color.new .BrightWhite)
  | "bright-red" => .ok (Color.new .BrightRed)
  | "bright-green" => .ok (Color.new .BrightGreen)
  | "bright-blue" => .ok (Color.new .BrightBlue)
  | "bright-yellow" => .ok (Color.new .BrightYellow)
  | "bright-cyan" => .ok (Color.new .BrightCyan)
  | "bright-magenta" => .ok (Color.new .BrightMagenta)
  | _ => .error (.valueError ("Unknown color: " ++ name))

/-- `Color::new_fixed`. -/
def Color.new_fixed (id : Nat) : Color := Color.new (.Fixed id)

/-- `Color::rgb` (the `#[staticmethod]`). -/
def Color.rgb (r g b : Nat) : Color := Color.new (.Rgb r g b)

/-- The dynamic Python value handed to `Color::py_new`: the Rust code
downcasts to `PyString`, then tries `extract::<u8>()` (a Python int in
u8 range), and everything else — tuples included — falls to the final
`else`. -/
inductive PyColorArg where
  | str (s : String)
  | int (n : Nat)
  | triple (r g b : Nat)
  | other
  deriving DecidableEq, Repr

/-- `Color::py_new` from `src/color.rs`: string inputs go through
`new_str`, ints in u8 range through `new_fixed`, and every other input
(out-of-range ints, tuples, anything else) raises
`PyTypeError("Expected a string, tuple of three u8s, or a single u8")`.
Note that the tuple case is never dispatched to `Color::rgb`. -/
def Color.py_new (arg : PyColorArg) : Except PyErr Color :=
  match arg with
  | .str s => Color.new_str s
  | .int n =>
      if n < 256 then .ok (Color.new_fixed n)
      else .error (.typeError "Expected a string, tuple of three u8s, or a single u8")
  | .triple _ _ _ =>
      .error (.typeError "Expected a string, tuple of three u8s, or a single u8")
  | .other =>
      .error (.typeError "Expected a string, tuple of three u8s, or a single u8")

/-! ## Label (`src/label.rs`) -/

/-- `Label` from `src/label.rs`.  The span is the `Range<usize>`
`(start, end)` pair; all other fields are optional metadata. -/
structure Label where
  span : Nat × Nat
  target : Option String
  message : Option String
  color : Option Color
  order : Option Int
  priority : Option Int
  deriving DecidableEq, Repr

/-- `Label::new`: a label with the given span and all metadata unset. -/
def Label.new (span : Nat × Nat) : Label :=
  { span := span, target := none, message := none, color := none,
    order := none, priority := none }

/-- `Label::set_params`: each field is overwritten only when the
corresponding argument is `Some`, mirroring the Rust `if let Some`
chain. -/
def Label.set_params (l : Label) (target message : Option String)
    (color : Option Color) (order priority : Option Int) : Label :=
  { l with
    target := match target with | some t => some t | none => l.target
    message := match message with | some m => some m | none => l.message
    color := match color with | some c => some c | none => l.color
    order := match order with | some o => some o | none => l.order
    priority := match priority with | some p => some p | none => l.priority }

/-- `Label::py_new`: rejects `start > end` with
`PyValueError("Start index must be less than or equal to end index")`,
otherwise builds the label via `Label::new` + `set_params`.  No other
check is performed. -/
def Label.py_new (start endIdx : Nat) (path message : Option String)
    (color : Option Color) (order priority : Option Int) : Except PyErr Label :=
  if start > endIdx then
    .error (.valueError "Start index must be less than or equal to end index")
  else
    .ok ((Label.new (start, endIdx)).set_params path message color order priority)

/-- `Label::copy`: `self.clone().set_params(None, message, color, order,
priority)` — the target argument is always `None`. -/
def Label.copy (l : Label) (message : Option String) (color : Option Color)
    (order priority : Option Int) : Label :=
  l.set_params none message color order priority

/-- `Label::replace_target`. -/
def Label.replace_target (l : Label) (target : String) : Label :=
  { l with target := some target }

/-- The `_Label = ariadne::Label<(Arc<str>, Range<usize>)>` value built
by `Label::to_ariadne`: the span id is the (target, range) pair, and the
optional attributes record which `with_*` builder calls were made. -/
structure AriadneLabel where
  target : String
  span : Nat × Nat
  message : Option String
  color : Option Color
  order : Option Int
  priority : Option Int
  deriving DecidableEq, Repr

/-- `Label::to_ariadne`: unset target defaults to `"<string>"`; the
remaining fields are forwarded through the conditional `with_*` calls. -/
def Label.to_ariadne (l : Label) : AriadneLabel :=
  { target := l.target.getD "<string>"
    span := l.span
    message := l.message
    color := l.color
    order := l.order
    priority := l.priority }

/-- `Label::to_ariadne_with_default`: when the target is unset, a clone
with the given path substituted is converted; the label itself is left
untouched. -/
def Label.to_ariadne_with_default (l : Label) (path : String) : AriadneLabel :=
  if l.target.isNone then (l.replace_target path).to_ariadne
  else l.to_ariadne

/-! ## Config (`src/config.rs`) -/

/-- `ariadne::LabelAttach`. -/
inductive LabelAttach where
  | Start | Middle | End
  deriving DecidableEq, Repr

/-- `ariadne::CharSet`. -/
inductive CharSet where
  | Unicode | Ascii
  deriving DecidableEq, Repr

/-- `ariadne::IndexType`. -/
inductive IndexType where
  | Byte | Char
  deriving DecidableEq, Repr

/-- `ariadne::Config` as a plain record of the options the wrapper sets.
`Config::py_new` overwrites every field via the `with_*` chain, so the
defaults below (the crate's documented defaults) never leak into a value
built by `py_new`. -/
structure AriadneConfig where
  cross_gap : Bool
  label_attach : LabelAttach
  compact : Bool
  underlines : Bool
  multiline_arrows : Bool
  color : Bool
  tab_width : Nat
  char_set : CharSet
  index_type : IndexType
  deriving DecidableEq, Repr

/-- `ariadne::Config::default()`. -/
def AriadneConfig.default : AriadneConfig :=
  { cross_gap := true, label_attach := .Middle, compact := false,
    underlines := true, multiline_arrows := true, color := true,
    tab_width := 4, char_set := .Unicode, index_type := .Char }

/-- `Config` from `src/config.rs`: a newtype over `ariadne::Config`. -/
structure Config where
  inner : AriadneConfig
  deriving DecidableEq, Repr

/-- `Config::new`. -/
def Config.new (inner : AriadneConfig) : Config := ⟨inner⟩

/-- `parse_label_attach` from `src/config.rs`, verbatim: `"start"` maps
to `Start`, `"middle"` maps to `End`, `"right"` maps to `Middle`, and
anything else — the string `"end"` included — raises the `PyValueError`
below. -/
def parse_label_attach (label_attach : String) : Except PyErr LabelAttach :=
  match label_attach with
  | "start" => .ok .Start
  | "middle" => .ok .End
  | "right" => .ok .Middle
  | _ => .error (.valueError
      "label_attach must be one of \x27start\x27, \x27middle\x27, \x27end\x27 or None")

/-- `Config::py_new`: applies the `with_*` chain to the default config;
only `parse_label_attach` can fail. -/
def Config.py_new (cross_gap compact underlines multiline_arrows color : Bool)
    (tab_width : Nat) (ascii byte_indexed : Bool) (label_attach : String) :
    Except PyErr Config := do
  let attach ← parse_label_attach label_attach
  .ok (Config.new
    { AriadneConfig.default with
      cross_gap := cross_gap
      compact := compact
      underlines := underlines
      multiline_arrows := multiline_arrows
      color := color
      tab_width := tab_width
      char_set := if ascii then .Ascii else .Unicode
      index_type := if byte_indexed then .Byte else .Char
      label_attach := attach })

/-! ## ReportKind and Source (`src/report.rs`) -/

/-- `ReportKind` from `src/report.rs`. -/
inductive ReportKind where
  | Error
  | Warning
  | Advice
  | Custom (name : String) (color : Color)
  deriving DecidableEq, Repr

/-- `ReportKind::from_params`, the `(name, color)` resolution.  The Rust
`match` is first-match over the patterns
`(None,None)|(Some "error",None)`, `(Some "warning",None)|(Some "warn",None)`,
`(Some "advice",None)`, `(None,Some _)`, `(Some name,Some color)`,
`(Some _,None)`; the string-literal arms are rendered here as an
equality chain with the same order and semantics. -/
def ReportKind.from_params (name : Option String) (color : Option Color) :
    Except PyErr ReportKind :=
  match name, color with
  | none, none => .ok .Error
  | some n, none =>
      if n = "error" then .ok .Error
      else if n = "warning" then .ok .Warning
      else if n = "warn" then .ok .Warning
      else if n = "advice" then .ok .Advice
      else .error (.valueError "Must specify a color for custom report kind")
  | none, some _ =>
      .error (.valueError "Color specified without a name for custom report kind")
  | some n, some c =>
      if n = "" then
        .error (.valueError "Custom report kind name cannot be empty")
      else if n = "error" ∨ n = "warning" ∨ n = "advice" ∨ n = "warn" then
        .error (.valueError ("Cannot set custom color for " ++ n))
      else .ok (.Custom n c)

/-- `Source` from `src/report.rs`: a resolved (path, text) pair.  The
pyo3 adapters (`Source::from_python`, `parse_files`) that produce these
from Python objects are boundary glue; the embedding takes the resolved
values. -/
structure Source where
  path : String
  source : String
  deriving DecidableEq, Repr

/-- `Source::new`. -/
def Source.new (path source : String) : Source := ⟨path, source⟩

/-- `Source::pair`. -/
def Source.pair (s : Source) : String × String := (s.path, s.source)

/-! ## Report (`src/report.rs`) -/

/-- The hue cursor of the color generator (see `cgNext` below); a
`Report` owns one, seeded fresh by `Report::new`. -/
abbrev CGState := Nat

/-- Modelled from the spec: the stepping angle of the color generator.
The generator's algorithm lives in the external `ariadne` crate and is
not under `src/` (`src/color_generator.rs` and `Report` only wrap it),
so it is modelled from §4.1: the hue advances by "an angle near 137.5°,
the golden angle" each call.  Hue is carried in tenths of a degree, so
137.5° is the exact integer 1375 and a full turn is 3600. -/
def goldenAngleStep : Nat := 1375

/-- Modelled from the spec: the fixed starting seed of a fresh generator
(§4.1 requires a fixed seed so that the first output is deterministic
across independent instances; the value itself is unspecified). -/
def cgSeed : CGState := 0

/-- Modelled from the spec: conversion of `(hue, fixed saturation, fixed
brightness)` to an RGB triple (§4.1).  Saturation and brightness are the
fixed maxima; this is the standard six-sector HSV to RGB conversion with
the hue in tenths of a degree. -/
def hsvToRgb (h : Nat) : Nat × Nat × Nat :=
  let f := h % 600
  let q := 255 * (600 - f) / 600
  let t := 255 * f / 600
  match h / 600 with
  | 0 => (255, t, 0)
  | 1 => (q, 255, 0)
  | 2 => (0, 255, t)
  | 3 => (0, q, 255)
  | 4 => (t, 0, 255)
  | _ => (255, 0, q)

/-- Modelled from the spec: one generator step (§4.1) — advance the hue
by the golden angle modulo a full turn, then convert the new hue to an
RGB color. -/
def cgNext (h : CGState) : AriadneColor × CGState :=
  let h1 := (h + goldenAngleStep) % 3600
  let rgb := hsvToRgb h1
  (.Rgb rgb.1 rgb.2.1 rgb.2.2, h1)

/-- `ColorGenerator` from `src/color_generator.rs`: a wrapper holding
the crate generator's state. -/
structure ColorGenerator where
  inner : CGState
  deriving DecidableEq, Repr

/-- `ColorGenerator::new` (`#[new]` in `src/color_generator.rs`): wraps
a freshly seeded crate generator. -/
def ColorGenerator.new : ColorGenerator := ⟨cgSeed⟩

/-- `ColorGenerator::next` (also `__next__`): draws one color, advancing
the state. -/
def ColorGenerator.next (g : ColorGenerator) : Color × ColorGenerator :=
  let step := cgNext g.inner
  (Color.new step.1, ⟨step.2⟩)

/-- The first `n` outputs of a generator: `next` iterated, collecting
the colors in order. -/
def ColorGenerator.take : Nat → ColorGenerator → List Color
  | 0, _ => []
  | n + 1, g =>
      let step := g.next
      step.1 :: ColorGenerator.take n step.2

/-- `Report` from `src/report.rs`. -/
structure Report where
  source : Source
  span : Nat × Nat
  config : Config
  code : Option String
  message : Option String
  kind : ReportKind
  labels : List Label
  notes : List String
  helps : List String
  files : List Source
  colors : CGState
  deriving DecidableEq, Repr

/-- `Report::new`: the base report — no code/message, kind `Error`,
empty labels/notes/helps/files, a fresh color generator. -/
def Report.new (source : Source) (span : Nat × Nat) (config : Config) : Report :=
  { source := source, span := span, config := config, code := none,
    message := none, kind := .Error, labels := [], notes := [], helps := [],
    files := [], colors := cgSeed }

/-- `Report::set_params`: plain assignment of the optional/collection
fields (unlike `Label::set_params`, nothing is merged). -/
def Report.set_params (r : Report) (code message : Option String)
    (kind : ReportKind) (labels : List Label) (notes helps : List String)
    (files : List Source) : Report :=
  { r with
    code := code
    message := message
    kind := kind
    labels := labels
    notes := notes
    helps := helps
    files := files }

/-- `Report::py_new` from `src/report.rs`: builds `span = start..end`
with no bounds check, resolves the severity via
`ReportKind::from_params`, then assembles via `Report::new` +
`set_params`.  The pyo3 source/files adapters are taken as already
resolved. -/
def Report.py_new (source : Source) (start endIdx : Nat)
    (code message : Option String) (kind : Option String)
    (color : Option Color) (labels : List Label) (notes helps : List String)
    (config : Config) (files : List Source) : Except PyErr Report := do
  let span := (start, endIdx)
  let k ← ReportKind.from_params kind color
  .ok ((Report.new source span config).set_params code message k labels notes
    helps files)

/-- `ariadne::ReportKind`, the target of `ReportKind::to_ariadne`. -/
inductive AriadneReportKind where
  | Error
  | Warning
  | Advice
  | Custom (name : String) (color : AriadneColor)
  deriving DecidableEq, Repr

/-- `ReportKind::to_ariadne`. -/
def ReportKind.to_ariadne : ReportKind → AriadneReportKind
  | .Error => .Error
  | .Warning => .Warning
  | .Advice => .Advice
  | .Custom name color => .Custom name color.inner

/-- The `_Report = ariadne::Report<(Arc<str>, Range<usize>)>` snapshot
built by `Report::build_ariadne_report`. -/
structure AriadneReport where
  kind : AriadneReportKind
  span : String × (Nat × Nat)
  config : AriadneConfig
  code : Option String
  message : Option String
  notes : List String
  helps : List String
  labels : List AriadneLabel
  deriving DecidableEq, Repr

/-- `Report::build_ariadne_report`: anchors the builder at the primary
path, forwards config/code/message, and converts every label through
`to_ariadne_with_default` with the primary path.  The results of the
`with_notes` and `with_helps` builder calls are discarded in the Rust
code (their returns are not reassigned to `builder`), so the built
report keeps the builder's empty note/help lists. -/
def Report.build_ariadne_report (r : Report) : AriadneReport :=
  let path := r.source.path
  { kind := r.kind.to_ariadne
    span := (path, r.span)
    config := r.config.inner
    code := r.code
    message := r.message
    notes := []
    helps := []
    labels := r.labels.map (fun label => label.to_ariadne_with_default path) }

/-- `Report::prepare_files`: the primary source's pair first, then each
auxiliary source's pair in attachment order. -/
def Report.prepare_files (r : Report) : List (String × String) :=
  let target := r.source.pair
  target :: r.files.map Source.pair

/-- The `color` pymethod on `Report`: draw from the report's own
generator. -/
def Report.color (r : Report) : Color × Report :=
  let step := cgNext r.colors
  (Color.new step.1, { r with colors := step.2 })

/-- `Report::add_label`: appends as-is. -/
def Report.add_label (r : Report) (label : Label) : Report :=
  { r with labels := r.labels ++ [label] }

/-- The `label` pymethod on `Report`: when no color is supplied, one is
drawn from the report's generator (advancing it even if the span check
then fails); on success the new label is appended and returned. -/
def Report.label (r : Report) (start endIdx : Nat)
    (path message : Option String) (color : Option Color)
    (order priority : Option Int) : Except PyErr Label × Report :=
  let drawn : Option Color × CGState :=
    match color with
    | some c => (some c, r.colors)
    | none =>
        let step := cgNext r.colors
        (some (Color.new step.1), step.2)
  match Label.py_new start endIdx path message drawn.1 order priority with
  | .ok label =>
      (.ok label, { r with colors := drawn.2, labels := r.labels ++ [label] })
  | .error e => (.error e, { r with colors := drawn.2 })

/-- `Report::add_note`. -/
def Report.add_note (r : Report) (note : String) : Report :=
  { r with notes := r.notes ++ [note] }

/-- `Report::add_help`. -/
def Report.add_help (r : Report) (help : String) : Report :=
  { r with helps := r.helps ++ [help] }

/-! ## Specification-side definitions

`reportKindSpecTable` is the one definition in this file written from the
spec's words rather than the source: the §4.3 truth table, stated rule by
rule, to be compared with `ReportKind.from_params`. -/

/-- The ReportKind resolution truth table as the spec enumerates it
(§4.3, rules in priority order): built-in names with no color resolve to
the matching built-in kind ("warn" aliasing Warning, an unset name
resolving to the default Error); a color without a name fails; a color
with an empty name fails; a color with a reserved built-in name fails; a
color with any other name gives `Custom(name, color)`; an unrecognized
name without a color fails. -/
def reportKindSpecTable (name : Option String) (color : Option Color) :
    Except PyErr ReportKind :=
  match name, color with
  | none, none => .ok .Error
  | some n, none =>
      if n = "error" then .ok .Error
      else if n = "warning" ∨ n = "warn" then .ok .Warning
      else if n = "advice" then .ok .Advice
      else .error (.valueError "Must specify a color for custom report kind")
  | none, some _ =>
      .error (.valueError "Color specified without a name for custom report kind")
  | some n, some c =>
      if n = "" then
        .error (.valueError "Custom report kind name cannot be empty")
      else if n = "error" ∨ n = "warning" ∨ n = "advice" ∨ n = "warn" then
        .error (.valueError ("Cannot set custom color for " ++ n))
      else .ok (.Custom n c)

/-! ## Theorems for the claims -/

/-- C3: `Label` construction fails (with the InvalidSpan `PyValueError`)
exactly when `start > end`; when `start ≤ end` it succeeds and returns
the assembled label.  The constructor never sees any source text, so no
length check can be and none is performed. -/
theorem label_span_validation (start endIdx : Nat) (path message : Option String)
    (color : Option Color) (order priority : Option Int) :
    (Label.py_new start endIdx path message color order priority
        = .error (.valueError "Start index must be less than or equal to end index")
      ↔ start > endIdx)
    ∧ (start ≤ endIdx →
        Label.py_new start endIdx path message color order priority
          = .ok ((Label.new (start, endIdx)).set_params path message color order
              priority)) := by
  constructor
  · unfold Label.py_new
    split
    · simp only [true_iff]
      omega
    · simp only [reduceCtorEq, false_iff]
      omega
  · intro h
    unfold Label.py_new
    split
    · omega
    · rfl

/-- C3 witness: at `start = 2 ≤ 5 = end` the constructor succeeds. -/
theorem label_span_validation_witness :
    Label.py_new 2 5 none none none none none
      = .ok ((Label.new (2, 5)).set_params none none none none none) :=
  (label_span_validation 2 5 none none none none none).2 (by decide)

/-- C5: `Label::copy` replaces exactly the explicitly supplied fields
among message/color/order/priority, keeps each omitted one at its prior
value, and copies span and target unchanged.  The operation builds a
fresh value from a clone, so the original label is untouched (the
embedding is pure; the Rust method takes `&self` and clones). -/
theorem label_copy_overrides (l : Label) (message : Option String)
    (color : Option Color) (order priority : Option Int) :
    (l.copy message color order priority).span = l.span
    ∧ (l.copy message color order priority).target = l.target
    ∧ (l.copy message color order priority).message
        = (match message with | some m => some m | none => l.message)
    ∧ (l.copy message color order priority).color
        = (match color with | some c => some c | none => l.color)
    ∧ (l.copy message color order priority).order
        = (match order with | some o => some o | none => l.order)
    ∧ (l.copy message color order priority).priority
        = (match priority with | some p => some p | none => l.priority) :=
  ⟨rfl, rfl, rfl, rfl, rfl, rfl⟩

/-- C7: the render-handoff source list is the primary source's pair
followed by the auxiliary sources' pairs in attachment order — so its
length is always `1 +` the number of auxiliaries (nothing is merged or
deduplicated), and a report with auxiliaries `[A, B]` hands off exactly
`[P, A, B]`. -/
theorem prepare_files_order (r : Report) (P A B : Source) (span : Nat × Nat)
    (config : Config) :
    r.prepare_files = r.source.pair :: r.files.map Source.pair
    ∧ r.prepare_files.length = 1 + r.files.length
    ∧ ((Report.new P span config).set_params none none .Error [] [] []
          [A, B]).prepare_files = [P.pair, A.pair, B.pair] := by
  refine ⟨rfl, ?_, rfl⟩
  simp [Report.prepare_files]
  omega

/-- C10: a report constructed with neither a kind name nor a color gets
severity `Error` — `from_params` resolves `(None, None)` to `Error`,
`Report::new` starts at `Error`, and `py_new` with both unset yields a
report whose kind is `Error`. -/
theorem report_default_kind (source : Source) (start endIdx : Nat)
    (code message : Option String) (labels : List Label)
    (notes helps : List String) (config : Config) (files : List Source) :
    ReportKind.from_params none none = .ok .Error
    ∧ (Report.new source (start, endIdx) config).kind = .Error
    ∧ (Report.py_new source start endIdx code message none none labels notes
        helps config files).map Report.kind = .ok .Error :=
  ⟨rfl, rfl, rfl⟩

/-- C2: `ReportKind::from_params` agrees with the spec's §4.3 truth
table (`reportKindSpecTable`) on every `(name, color)` input. -/
theorem from_params_matches_spec_table (name : Option String)
    (color : Option Color) :
    ReportKind.from_params name color = reportKindSpecTable name color := by
  cases name with
  | none => cases color <;> rfl
  | some n =>
    cases color with
    | none =>
      simp only [ReportKind.from_params, reportKindSpecTable]
      by_cases h1 : n = "error" <;> by_cases h2 : n = "warning" <;>
        by_cases h3 : n = "warn" <;> by_cases h4 : n = "advice" <;>
        simp [h1, h2, h3, h4]
    | some c => rfl

/-- C8: evaluation of `parse_label_attach` (and `Config::py_new`) at
each member of the enumeration.  `"start"` maps to `Start`, but
`"middle"` maps to `End`, the undocumented `"right"` maps to `Middle`,
and `"end"` is rejected — even though the function's own error message
lists exactly `start`/`middle`/`end` as the valid inputs.  This
contradicts both the spec and the code's own message. -/
theorem parse_label_attach_divergence :
    parse_label_attach "start" = .ok .Start
    ∧ parse_label_attach "middle" = .ok .End
    ∧ parse_label_attach "right" = .ok .Middle
    ∧ parse_label_attach "end" = .error (.valueError
        "label_attach must be one of \x27start\x27, \x27middle\x27, \x27end\x27 or None")
    ∧ (Config.py_new false false true true true 4 false false "middle").map
        (fun c => c.inner.label_attach) = .ok .End
    ∧ (Config.py_new false false true true true 4 false false "end").isOk
        = false :=
  ⟨rfl, rfl, rfl, rfl, rfl, rfl⟩

/-- C9: evaluation of the boundary `Color` constructor.  A recognized
name resolves to the named variant and a small integer to the indexed
variant, but an RGB triple input is rejected with the `PyTypeError`
whose own message claims a "tuple of three u8s" is accepted; the RGB
variant is reachable only through the separate static `Color::rgb`. -/
theorem color_py_new_divergence :
    Color.py_new (.str "red") = .ok (Color.new .Red)
    ∧ Color.py_new (.int 42) = .ok (Color.new (.Fixed 42))
    ∧ Color.py_new (.triple 10 20 30)
        = .error (.typeError "Expected a string, tuple of three u8s, or a single u8")
    ∧ Color.py_new (.str "no-such-color")
        = .error (.valueError "Unknown color: no-such-color")
    ∧ Color.py_new (.int 300)
        = .error (.typeError "Expected a string, tuple of three u8s, or a single u8")
    ∧ Color.rgb 10 20 30 = Color.new (.Rgb 10 20 30) :=
  ⟨rfl, rfl, rfl, rfl, rfl, rfl⟩

/-- C1 counterexample: with `start = 1 > 0 = end` (and default severity
inputs), `Report::py_new` succeeds — no `InvalidSpan` failure occurs,
because the report constructor never checks the bounds. -/
theorem report_span_unchecked_cex :
    (1 : Nat) > 0
    ∧ (Report.py_new (Source.new "main.rs" "abc") 1 0 none none none none
        [] [] [] (Config.new AriadneConfig.default) []).isOk = true :=
  ⟨by decide, rfl⟩

/-- C1 amended: `Report::py_new` performs no span validation at all —
for every pair of raw bounds, including `start > end`, whenever the
severity inputs resolve, construction succeeds and stores the bounds
verbatim. -/
theorem report_span_unchecked (source : Source) (start endIdx : Nat)
    (code message : Option String) (kind : Option String)
    (color : Option Color) (k : ReportKind) (labels : List Label)
    (notes helps : List String) (config : Config) (files : List Source)
    (h : ReportKind.from_params kind color = .ok k) :
    Report.py_new source start endIdx code message kind color labels notes
        helps config files
      = .ok ((Report.new source (start, endIdx) config).set_params code message
          k labels notes helps files) := by
  unfold Report.py_new
  rw [h]
  rfl

/-- C1 amended, witness: at `start = 5 > 2 = end` the report constructor
succeeds and stores the span `(5, 2)`. -/
theorem report_span_unchecked_witness :
    Report.py_new (Source.new "a.rs" "text") 5 2 none none none none [] [] []
        (Config.new AriadneConfig.default) []
      = .ok ((Report.new (Source.new "a.rs" "text") (5, 2)
          (Config.new AriadneConfig.default)).set_params none none .Error []
          [] [] []) :=
  report_span_unchecked (Source.new "a.rs" "text") 5 2 none none none none
    .Error [] [] [] (Config.new AriadneConfig.default) [] rfl

/-- C6: a label whose target is unset resolves, at render binding, to
the binding report's own primary source path — computed fresh from the
path it is bound against (the embedding is pure, mirroring the Rust
clone-based implementation, so the label itself is never changed): the
same label bound into two reports resolves to each report's own path,
and `build_ariadne_report` converts every attached label with the
report's primary path as the default. -/
theorem label_target_resolution (l : Label) (h : l.target = none)
    (r1 r2 : Report) :
    (l.to_ariadne_with_default r1.source.path).target = r1.source.path
    ∧ (l.to_ariadne_with_default r2.source.path).target = r2.source.path
    ∧ (∀ r : Report, l ∈ r.labels →
        l.to_ariadne_with_default r.source.path ∈ r.build_ariadne_report.labels
        ∧ (l.to_ariadne_with_default r.source.path).target = r.source.path) := by
  have key : ∀ p : String, (l.to_ariadne_with_default p).target = p := by
    intro p
    simp [Label.to_ariadne_with_default, h, Label.replace_target,
      Label.to_ariadne]
  refine ⟨key _, key _, fun r hmem => ⟨?_, key _⟩⟩
  simp only [Report.build_ariadne_report]
  exact List.mem_map_of_mem _ hmem

/-- C6 witness: the same targetless label bound into a report anchored
at `"a.rs"` and into one anchored at `"b.rs"` resolves to `"a.rs"` and
`"b.rs"` respectively. -/
theorem label_target_resolution_witness :
    ((Label.new (0, 1)).to_ariadne_with_default
        (Report.new (Source.new "a.rs" "xx") (0, 1)
          (Config.new AriadneConfig.default)).source.path).target = "a.rs"
    ∧ ((Label.new (0, 1)).to_ariadne_with_default
        (Report.new (Source.new "b.rs" "yy") (0, 1)
          (Config.new AriadneConfig.default)).source.path).target = "b.rs" := by
  have h := label_target_resolution (Label.new (0, 1)) rfl
    (Report.new (Source.new "a.rs" "xx") (0, 1)
      (Config.new AriadneConfig.default))
    (Report.new (Source.new "b.rs" "yy") (0, 1)
      (Config.new AriadneConfig.default))
  exact ⟨h.1, h.2.1⟩

/-! ## Color generator lemmas

Every hue the generator ever holds is a multiple of 25 tenths-of-degree
(the seed is 0 and the step 1375 and the modulus 3600 are both multiples
of 25), so adjacent-output distinctness reduces to a finite check over
the 144 reachable hues. -/

set_option maxRecDepth 4000 in
/-- On each of the 144 reachable hues, one golden-angle step changes the
RGB conversion. -/
lemma hsv_step_ne_indexed : ∀ j : Nat, j < 144 →
    hsvToRgb (25 * j) ≠ hsvToRgb ((25 * j + goldenAngleStep) % 3600) := by
  decide

/-- A golden-angle step changes the RGB conversion at any in-range hue
that is a multiple of 25. -/
lemma hsv_step_ne (h : Nat) (hlt : h < 3600) (hmod : h % 25 = 0) :
    hsvToRgb h ≠ hsvToRgb ((h + goldenAngleStep) % 3600) := by
  obtain ⟨j, rfl⟩ := Nat.dvd_of_mod_eq_zero hmod
  exact hsv_step_ne_indexed j (by omega)

/-- Stepping keeps the hue in range. -/
lemma hue_step_lt (h : Nat) : (h + goldenAngleStep) % 3600 < 3600 :=
  Nat.mod_lt _ (by norm_num)

/-- Stepping keeps the hue a multiple of 25. -/
lemma hue_step_mod (h : Nat) (hmod : h % 25 = 0) :
    (h + goldenAngleStep) % 3600 % 25 = 0 := by
  have hdvd : (25 : Nat) ∣ (h + goldenAngleStep) % 3600 :=
    (Nat.dvd_mod_iff (by norm_num)).mpr
      (Nat.dvd_add (Nat.dvd_of_mod_eq_zero hmod) (by decide))
  obtain ⟨k, hk⟩ := hdvd
  omega

/-- Unfolding one draw from the generator. -/
lemma take_succ (n : Nat) (g : ColorGenerator) :
    ColorGenerator.take (n + 1) g = g.next.1 :: ColorGenerator.take n g.next.2 :=
  rfl

/-- The generator draws `n` colors in `n` calls. -/
lemma take_length (n : Nat) : ∀ g : ColorGenerator,
    (ColorGenerator.take n g).length = n := by
  induction n with
  | zero => intro g; rfl
  | succ m ih => intro g; rw [take_succ]; simp [ih]

/-- From any in-range hue that is a multiple of 25, consecutive outputs
of the generator are pairwise distinct. -/
lemma take_chain (n : Nat) :
    ∀ h : CGState, h < 3600 → h % 25 = 0 →
      List.Chain' (· ≠ ·) (ColorGenerator.take n ⟨h⟩) := by
  induction n with
  | zero => intro h _ _; simp [ColorGenerator.take]
  | succ m ih =>
    intro h hlt hmod
    rw [take_succ]
    have hstep : (⟨h⟩ : ColorGenerator).next.2
        = ⟨(h + goldenAngleStep) % 3600⟩ := rfl
    refine List.chain'_cons'.mpr ⟨?_, ?_⟩
    · intro y hy
      cases m with
      | zero => simp [ColorGenerator.take] at hy
      | succ k =>
        rw [hstep, take_succ] at hy
        simp only [List.head?_cons, Option.mem_def, Option.some.injEq] at hy
        subst hy
        have hne := hsv_step_ne ((h + goldenAngleStep) % 3600)
          (hue_step_lt h) (hue_step_mod h hmod)
        simp only [ColorGenerator.next, cgNext, Color.new, ne_eq,
          Color.mk.injEq, AriadneColor.Rgb.injEq]
        intro heq
        apply hne
        obtain ⟨e1, e2, e3⟩ := heq
        exact Prod.ext e1 (Prod.ext e2 e3)
    · rw [hstep]
      exact ih _ (hue_step_lt h) (hue_step_mod h hmod)

/-- C4: drawing `N` colors from a fresh generator yields `N` colors of
which no two consecutive ones are equal, and any two freshly constructed
generators produce identical sequences. -/
theorem colorgenerator_consecutive_distinct (n : Nat) (g1 g2 : ColorGenerator)
    (h1 : g1 = ColorGenerator.new) (h2 : g2 = ColorGenerator.new) :
    (ColorGenerator.take n g1).length = n
    ∧ List.Chain' (· ≠ ·) (ColorGenerator.take n g1)
    ∧ ColorGenerator.take n g1 = ColorGenerator.take n g2 := by
  subst h1; subst h2
  exact ⟨take_length n _, take_chain n cgSeed (by decide) (by decide), rfl⟩

/-- C4 witness: eight draws from two fresh generators — eight colors, no
two consecutive ones equal, equal sequences. -/
theorem colorgenerator_consecutive_distinct_witness :
    (ColorGenerator.take 8 ColorGenerator.new).length = 8
    ∧ List.Chain' (· ≠ ·) (ColorGenerator.take 8 ColorGenerator.new)
    ∧ ColorGenerator.take 8 ColorGenerator.new
        = ColorGenerator.take 8 ColorGenerator.new :=
  colorgenerator_consecutive_distinct 8 ColorGenerator.new ColorGenerator.new
    rfl rfl
